import Mathlib

/-!
Verification of the Pleasant Password lookup plugin
(`src/pleasant.py` and `src/plugins/lookup/pleasant.py`).

The plugin performs a three-step authenticated HTTP workflow
(POST an OAuth2 token request, GET entry metadata, GET the entry secret)
and returns a single `{username, password}` record, or aborts with an
error.  The embedding below models the HTTP transport as an environment
function from requests to outcomes, Python/requests exceptions as an
inductive of exception classes (respecting the `requests` class
hierarchy, in particular that `ConnectTimeout` is a subclass of both
`ConnectionError` and `Timeout`), and each plugin method as a pure
function returning an `Except` value together with the list of HTTP
requests it issued.
-/

namespace PleasantSpec

/-- A parsed JSON value, as Python's `json` module would produce it
(`null` ↦ `None`, objects ↦ `dict` with distinct keys, numbers modelled
as integers). -/
inductive Json where
  | null
  | bool (b : Bool)
  | num (n : Int)
  | str (s : String)
  | arr (elems : List Json)
  | obj (fields : List (String × Json))

/-- Python `dict` lookup on the field list of a JSON object
(keys are distinct, so first match is the match). -/
def lookupField : List (String × Json) → String → Option Json
  | [], _ => none
  | (k, v) :: rest, key => if k = key then some v else lookupField rest key

/-- Name of the Python type of a parsed JSON value, as it appears in
Python error messages. -/
def pyTypeName : Json → String
  | .null => "NoneType"
  | .bool _ => "bool"
  | .num _ => "int"
  | .str _ => "str"
  | .arr _ => "list"
  | .obj _ => "dict"

mutual

/-- Python `repr` of a parsed JSON value (for strings without quote
characters). -/
def pyRepr : Json → String
  | .null => "None"
  | .bool true => "True"
  | .bool false => "False"
  | .num n => toString n
  | .str s => "'" ++ s ++ "'"
  | .arr es => "[" ++ pyReprList es ++ "]"
  | .obj fs => "\x7b" ++ pyReprFields fs ++ "\x7d"

/-- `repr` of the comma-separated elements of a Python list. -/
def pyReprList : List Json → String
  | [] => ""
  | [e] => pyRepr e
  | e :: rest => pyRepr e ++ ", " ++ pyReprList rest

/-- `repr` of the comma-separated items of a Python dict. -/
def pyReprFields : List (String × Json) → String
  | [] => ""
  | [(k, v)] => "'" ++ k ++ "': " ++ pyRepr v
  | (k, v) :: rest => "'" ++ k ++ "': " ++ pyRepr v ++ ", " ++ pyReprFields rest

end

/-- Python `str()` of a parsed JSON value: strings pass through
unquoted, everything else is its `repr`. -/
def pyStr : Json → String
  | .str s => s
  | v => pyRepr v

/-- `ansible.module_utils._text.to_text` with the default
`nonstring='simplerepr'` policy: text is returned as is, any other
value is converted with `str()`. -/
def toText : Json → String := pyStr

/-- The `verify` argument handed to `requests`: absent (`None`), a
boolean, or a CA-bundle path. -/
inductive VerifyOpt where
  | none
  | bool (b : Bool)
  | path (p : String)
deriving DecidableEq

/-- An outbound HTTP request exactly as the plugin hands it to
`requests.request`: method, url, headers, optional body, TLS
verification policy and the (already defaulted) timeout. -/
structure HttpRequest where
  method : String
  url : String
  headers : List (String × String)
  body : Option String
  verify : VerifyOpt
  timeout : Rat
deriving DecidableEq

/-- What `response.json()` yields: a parsed value, or a decode failure
carrying the `JSONDecodeError` message. -/
inductive Parsed where
  | ok (j : Json)
  | fail (msg : String)

/-- An HTTP response as the plugin observes it: status code, reason
phrase, and the result of decoding the body as JSON. -/
structure HttpResponse where
  status_code : Nat
  reason : String
  body : Parsed

/-- An exception raised by `requests.request` itself, classified by the
`requests` exception hierarchy: `connectTimeout` is an instance of both
`ConnectionError` and `Timeout`; `readTimeout` is a `Timeout` only;
`other` stands for any `requests` exception matching none of the
plugin's specific clauses. -/
inductive ReqExc where
  | connError (msg : String)
  | connectTimeout (msg : String)
  | readTimeout (msg : String)
  | urlRequired (msg : String)
  | other (msg : String)

/-- Outcome of one `requests.request` call: a response, or a raised
exception. -/
inductive CallOutcome where
  | resp (r : HttpResponse)
  | exc (e : ReqExc)

/-- The server / transport environment: what each outbound request
comes back with. -/
def Env : Type := HttpRequest → CallOutcome

/-- The message `Response.raise_for_status` puts in the `HTTPError` it
raises for a 4xx/5xx status (`requests/models.py`). -/
def httpErrorMsg (status : Nat) (reason url : String) : String :=
  if status < 500 then
    toString status ++ " Client Error: " ++ reason ++ " for url: " ++ url
  else
    toString status ++ " Server Error: " ++ reason ++ " for url: " ++ url

/-- How a plugin invocation aborts: an `AnsibleError` with a message,
or a plain Python exception escaping uncaught (`UnboundLocalError` from
a handler, `TypeError` from header concatenation, `AttributeError` from
`.get` on a non-dict, `IndexError` from `terms[0]`, or a `requests`
exception matched by no clause). -/
inductive Failure where
  | ansibleError (msg : String)
  | unboundLocal (varName : String)
  | typeError (msg : String)
  | attributeError (msg : String)
  | indexError (msg : String)
  | uncaught (msg : String)

/-- `to_native(e)`: the message text of an exception (for
`AnsibleError`, `str()` returns its message). -/
def Failure.message : Failure → String
  | .ansibleError m => m
  | .unboundLocal v => "local variable '" ++ v ++ "' referenced before assignment"
  | .typeError m => m
  | .attributeError m => m
  | .indexError m => m
  | .uncaught m => m

/-- Python's `TypeError` message for `"Bearer " + x` when `x` is not a
string. -/
def concatTypeErrorMsg (typeName : String) : String :=
  "can only concatenate str (not \"" ++ typeName ++ "\") to str"

/-- Python's `AttributeError` message for `x.get(...)` when `x` has no
`get` attribute. -/
def noGetAttrMsg (typeName : String) : String :=
  "'" ++ typeName ++ "' object has no attribute 'get'"

/-- The one credential record the lookup returns:
`{"username": ..., "password": ...}`. -/
structure Record where
  username : String
  password : String
deriving DecidableEq

end PleasantSpec

namespace PleasantSpec

/-- The `variables` mapping as `run` reads it: the five
`pleasant_*` keys (host, username and password are taken as present
strings; `verify` and `timeout` keep their possibly-absent Python
shape). -/
structure Variables where
  pleasant_host : String
  pleasant_username : String
  pleasant_password : String
  pleasant_verify : VerifyOpt
  pleasant_timeout : Option Rat

/-- Exceptions raised inside `run`'s `try` block are never `requests`
exceptions (the nested helpers convert those to `AnsibleError`
already), so they always land in the final `except Exception` clause:
`raise AnsibleError(f"No entry found {to_native(e)}")`. -/
def wrapNoEntry (f : Failure) : Failure :=
  .ansibleError ("No entry found " ++ f.message)

end PleasantSpec

namespace pleasant

open PleasantSpec

/-- `LookupModule.get_token` of `src/pleasant.py`: POST
`{host}/oauth2/token` with the form-encoded password grant.  A 4xx/5xx
status makes `raise_for_status` raise `HTTPError`, converted to
`AnsibleError`; a `ConnectTimeout` is matched by the earlier
`except requests.ConnectionError` clause (it is a subclass), so its
dedicated clause is unreachable; an undecodable body makes the handler
itself raise `UnboundLocalError` because its f-string reads the never
assigned `pleasant_at`. -/
def get_token (pleasant_host pleasant_username pleasant_password : String)
    (pleasant_verify : VerifyOpt) (pleasant_timeout : Option Rat) (env : Env) :
    Except Failure Json × List HttpRequest :=
  let timeout : Rat := match pleasant_timeout with
    | Option.none => 5
    | some t => t
  let url := pleasant_host ++ "/oauth2/token"
  let payload := "grant_type=password&username=" ++ pleasant_username ++
    "&password=" ++ pleasant_password
  let req : HttpRequest :=
    { method := "POST", url := url,
      headers := [("Content-Type", "application/x-www-form-urlencoded")],
      body := some payload, verify := pleasant_verify, timeout := timeout }
  match env req with
  | .exc (.connError m) =>
      (.error (.ansibleError ("Can't connect to host to get token " ++ m)), [req])
  | .exc (.connectTimeout m) =>
      (.error (.ansibleError ("Can't connect to host to get token " ++ m)), [req])
  | .exc (.readTimeout m) =>
      (.error (.ansibleError ("The request timed out " ++ m)), [req])
  | .exc (.urlRequired m) =>
      (.error (.ansibleError ("Invalid url " ++ m)), [req])
  | .exc (.other m) => (.error (.uncaught m), [req])
  | .resp r =>
    if 400 ≤ r.status_code ∧ r.status_code < 600 then
      (.error (.ansibleError ("An HTTP Error occured " ++
        httpErrorMsg r.status_code r.reason url)), [req])
    else
      match r.body with
      | .ok j => (.ok j, [req])
      | .fail _ => (.error (.unboundLocal "pleasant_at"), [req])

/-- `LookupModule.get_pps_entry` of `src/pleasant.py`: GET
`{host}/api/v5/rest/entries/{guid}` with a bearer token.  The
`"Bearer " + pleasant_at` concatenation sits before the `try`, so a
non-string token raises a bare `TypeError` before any request is
issued; a falsy timeout (absent or zero) is replaced by 5. -/
def get_pps_entry (pleasant_host guid : String) (verify : VerifyOpt)
    (timeout : Option Rat) (pleasant_at : Json) (env : Env) :
    Except Failure HttpResponse × List HttpRequest :=
  let url := pleasant_host ++ "/api/v5/rest/entries/" ++ guid
  match pleasant_at with
  | .str tok =>
    let timeout' : Rat := match timeout with
      | Option.none => 5
      | some t => if t = 0 then 5 else t
    let req : HttpRequest :=
      { method := "GET", url := url,
        headers := [("Content-type", "application/json"),
                    ("Authorization", "Bearer " ++ tok)],
        body := Option.none, verify := verify, timeout := timeout' }
    match env req with
    | .exc (.connError m) =>
        (.error (.ansibleError ("Can't connect to host to get token " ++ m)), [req])
    | .exc (.connectTimeout m) =>
        (.error (.ansibleError ("Can't connect to host to get token " ++ m)), [req])
    | .exc (.readTimeout m) =>
        (.error (.ansibleError ("The request timed out " ++ m)), [req])
    | .exc (.urlRequired m) =>
        (.error (.ansibleError ("Invalid url " ++ m)), [req])
    | .exc (.other m) =>
        (.error (.ansibleError ("Failed to execute get_pps_entry: error " ++ m)), [req])
    | .resp r =>
      if 400 ≤ r.status_code ∧ r.status_code < 600 then
        (.error (.ansibleError ("An HTTP Error occured " ++
          httpErrorMsg r.status_code r.reason url)), [req])
      else (.ok r, [req])
  | tok => (.error (.typeError (concatTypeErrorMsg (pyTypeName tok))), [])

/-- `LookupModule.get_password` of `src/pleasant.py`: GET
`{host}/api/v5/rest/entries/{id}/password`, same structure as
`get_pps_entry` but with its own generic-failure message. -/
def get_password (pleasant_host pleasant_id : String) (verify : VerifyOpt)
    (timeout : Option Rat) (pleasant_at : Json) (env : Env) :
    Except Failure HttpResponse × List HttpRequest :=
  let url := pleasant_host ++ "/api/v5/rest/entries/" ++ pleasant_id ++ "/password"
  match pleasant_at with
  | .str tok =>
    let timeout' : Rat := match timeout with
      | Option.none => 5
      | some t => if t = 0 then 5 else t
    let req : HttpRequest :=
      { method := "GET", url := url,
        headers := [("Content-type", "application/json"),
                    ("Authorization", "Bearer " ++ tok)],
        body := Option.none, verify := verify, timeout := timeout' }
    match env req with
    | .exc (.connError m) =>
        (.error (.ansibleError ("Can't connect to host to get token " ++ m)), [req])
    | .exc (.connectTimeout m) =>
        (.error (.ansibleError ("Can't connect to host to get token " ++ m)), [req])
    | .exc (.readTimeout m) =>
        (.error (.ansibleError ("The request timed out " ++ m)), [req])
    | .exc (.urlRequired m) =>
        (.error (.ansibleError ("Invalid url " ++ m)), [req])
    | .exc (.other m) =>
        (.error (.ansibleError ("Failed to get password " ++ pleasant_id ++
          " - error " ++ m)), [req])
    | .resp r =>
      if 400 ≤ r.status_code ∧ r.status_code < 600 then
        (.error (.ansibleError ("An HTTP Error occured " ++
          httpErrorMsg r.status_code r.reason url)), [req])
      else (.ok r, [req])
  | tok => (.error (.typeError (concatTypeErrorMsg (pyTypeName tok))), [])

/-- `LookupModule.run` of `src/pleasant.py`: take `terms[0]` as the
entry GUID, obtain a token (outside the `try`, so its failures
propagate unwrapped), then inside the `try`: read
`access_token` with default `"default"`, fetch the entry, decode it,
fetch the password, decode it, read `Username` (absent ↦ `None`), and
append the single record.  Anything raised inside the `try` is an
`AnsibleError` or a plain Python error, never a `requests` exception,
so the five specific clauses are dead and the generic clause wraps it
as `"No entry found ..."`. -/
def run (terms : List String) (vars : Variables) (env : Env) :
    Except Failure (List Record) × List HttpRequest :=
  match terms with
  | [] => (.error (.indexError "list index out of range"), [])
  | guid :: _ =>
    match get_token vars.pleasant_host vars.pleasant_username
        vars.pleasant_password vars.pleasant_verify
        vars.pleasant_timeout env with
    | (.error f, tr1) => (.error f, tr1)
    | (.ok pleasant_at, tr1) =>
      match pleasant_at with
      | .obj tf =>
        let access_token := (lookupField tf "access_token").getD (.str "default")
        match get_pps_entry vars.pleasant_host guid vars.pleasant_verify
            vars.pleasant_timeout access_token env with
        | (.error f, tr2) => (.error (wrapNoEntry f), tr1 ++ tr2)
        | (.ok retval, tr2) =>
          match retval.body with
          | .fail m => (.error (wrapNoEntry (.uncaught m)), tr1 ++ tr2)
          | .ok entry =>
            match get_password vars.pleasant_host guid vars.pleasant_verify
                vars.pleasant_timeout access_token env with
            | (.error f, tr3) => (.error (wrapNoEntry f), tr1 ++ tr2 ++ tr3)
            | (.ok retval2, tr3) =>
              match retval2.body with
              | .fail m => (.error (wrapNoEntry (.uncaught m)), tr1 ++ tr2 ++ tr3)
              | .ok passwd =>
                match entry with
                | .obj ef =>
                  let idusername := (lookupField ef "Username").getD .null
                  (.ok [{ username := toText idusername, password := toText passwd }],
                    tr1 ++ tr2 ++ tr3)
                | e =>
                  (.error (wrapNoEntry (.attributeError (noGetAttrMsg (pyTypeName e)))),
                    tr1 ++ tr2 ++ tr3)
      | a => (.error (wrapNoEntry (.attributeError (noGetAttrMsg (pyTypeName a)))), tr1)

end pleasant

namespace pluginsLookup

open PleasantSpec

/-- `LookupModule.get_token` of `src/plugins/lookup/pleasant.py`: POST
`{host}/oauth2/token` with the form-encoded password grant.  A 4xx/5xx
status makes `raise_for_status` raise `HTTPError`, converted to
`AnsibleError`; a `ConnectTimeout` is matched by the earlier
`except requests.ConnectionError` clause (it is a subclass), so its
dedicated clause is unreachable; an undecodable body makes the handler
itself raise `UnboundLocalError` because its f-string reads the never
assigned `pleasant_at`. -/
def get_token (pleasant_host pleasant_username pleasant_password : String)
    (pleasant_verify : VerifyOpt) (pleasant_timeout : Option Rat) (env : Env) :
    Except Failure Json × List HttpRequest :=
  let timeout : Rat := match pleasant_timeout with
    | Option.none => 5
    | some t => t
  let url := pleasant_host ++ "/oauth2/token"
  let payload := "grant_type=password&username=" ++ pleasant_username ++
    "&password=" ++ pleasant_password
  let req : HttpRequest :=
    { method := "POST", url := url,
      headers := [("Content-Type", "application/x-www-form-urlencoded")],
      body := some payload, verify := pleasant_verify, timeout := timeout }
  match env req with
  | .exc (.connError m) =>
      (.error (.ansibleError ("Can't connect to host to get token " ++ m)), [req])
  | .exc (.connectTimeout m) =>
      (.error (.ansibleError ("Can't connect to host to get token " ++ m)), [req])
  | .exc (.readTimeout m) =>
      (.error (.ansibleError ("The request timed out " ++ m)), [req])
  | .exc (.urlRequired m) =>
      (.error (.ansibleError ("Invalid url " ++ m)), [req])
  | .exc (.other m) => (.error (.uncaught m), [req])
  | .resp r =>
    if 400 ≤ r.status_code ∧ r.status_code < 600 then
      (.error (.ansibleError ("An HTTP Error occured " ++
        httpErrorMsg r.status_code r.reason url)), [req])
    else
      match r.body with
      | .ok j => (.ok j, [req])
      | .fail _ => (.error (.unboundLocal "pleasant_at"), [req])

/-- `LookupModule.get_pps_entry` of `src/plugins/lookup/pleasant.py`: GET
`{host}/api/v5/rest/entries/{guid}` with a bearer token.  The
`"Bearer " + pleasant_at` concatenation sits before the `try`, so a
non-string token raises a bare `TypeError` before any request is
issued; a falsy timeout (absent or zero) is replaced by 5. -/
def get_pps_entry (pleasant_host guid : String) (verify : VerifyOpt)
    (timeout : Option Rat) (pleasant_at : Json) (env : Env) :
    Except Failure HttpResponse × List HttpRequest :=
  let url := pleasant_host ++ "/api/v5/rest/entries/" ++ guid
  match pleasant_at with
  | .str tok =>
    let timeout' : Rat := match timeout with
      | Option.none => 5
      | some t => if t = 0 then 5 else t
    let req : HttpRequest :=
      { method := "GET", url := url,
        headers := [("Content-type", "application/json"),
                    ("Authorization", "Bearer " ++ tok)],
        body := Option.none, verify := verify, timeout := timeout' }
    match env req with
    | .exc (.connError m) =>
        (.error (.ansibleError ("Can't connect to host to get token " ++ m)), [req])
    | .exc (.connectTimeout m) =>
        (.error (.ansibleError ("Can't connect to host to get token " ++ m)), [req])
    | .exc (.readTimeout m) =>
        (.error (.ansibleError ("The request timed out " ++ m)), [req])
    | .exc (.urlRequired m) =>
        (.error (.ansibleError ("Invalid url " ++ m)), [req])
    | .exc (.other m) =>
        (.error (.ansibleError ("Failed to execute get_pps_entry: error " ++ m)), [req])
    | .resp r =>
      if 400 ≤ r.status_code ∧ r.status_code < 600 then
        (.error (.ansibleError ("An HTTP Error occured " ++
          httpErrorMsg r.status_code r.reason url)), [req])
      else (.ok r, [req])
  | tok => (.error (.typeError (concatTypeErrorMsg (pyTypeName tok))), [])

/-- `LookupModule.get_password` of `src/plugins/lookup/pleasant.py`: GET
`{host}/api/v5/rest/entries/{id}/password`, same structure as
`get_pps_entry` but with its own generic-failure message. -/
def get_password (pleasant_host pleasant_id : String) (verify : VerifyOpt)
    (timeout : Option Rat) (pleasant_at : Json) (env : Env) :
    Except Failure HttpResponse × List HttpRequest :=
  let url := pleasant_host ++ "/api/v5/rest/entries/" ++ pleasant_id ++ "/password"
  match pleasant_at with
  | .str tok =>
    let timeout' : Rat := match timeout with
      | Option.none => 5
      | some t => if t = 0 then 5 else t
    let req : HttpRequest :=
      { method := "GET", url := url,
        headers := [("Content-type", "application/json"),
                    ("Authorization", "Bearer " ++ tok)],
        body := Option.none, verify := verify, timeout := timeout' }
    match env req with
    | .exc (.connError m) =>
        (.error (.ansibleError ("Can't connect to host to get token " ++ m)), [req])
    | .exc (.connectTimeout m) =>
        (.error (.ansibleError ("Can't connect to host to get token " ++ m)), [req])
    | .exc (.readTimeout m) =>
        (.error (.ansibleError ("The request timed out " ++ m)), [req])
    | .exc (.urlRequired m) =>
        (.error (.ansibleError ("Invalid url " ++ m)), [req])
    | .exc (.other m) =>
        (.error (.ansibleError ("Failed to get password " ++ pleasant_id ++
          " - error " ++ m)), [req])
    | .resp r =>
      if 400 ≤ r.status_code ∧ r.status_code < 600 then
        (.error (.ansibleError ("An HTTP Error occured " ++
          httpErrorMsg r.status_code r.reason url)), [req])
      else (.ok r, [req])
  | tok => (.error (.typeError (concatTypeErrorMsg (pyTypeName tok))), [])

/-- `LookupModule.run` of `src/plugins/lookup/pleasant.py`: take `terms[0]` as the
entry GUID, obtain a token (outside the `try`, so its failures
propagate unwrapped), then inside the `try`: read
`access_token` with default `"default"`, fetch the entry, decode it,
fetch the password, decode it, read `Username` (absent ↦ `None`), and
append the single record.  Anything raised inside the `try` is an
`AnsibleError` or a plain Python error, never a `requests` exception,
so the five specific clauses are dead and the generic clause wraps it
as `"No entry found ..."`. -/
def run (terms : List String) (vars : Variables) (env : Env) :
    Except Failure (List Record) × List HttpRequest :=
  match terms with
  | [] => (.error (.indexError "list index out of range"), [])
  | guid :: _ =>
    match get_token vars.pleasant_host vars.pleasant_username
        vars.pleasant_password vars.pleasant_verify
        vars.pleasant_timeout env with
    | (.error f, tr1) => (.error f, tr1)
    | (.ok pleasant_at, tr1) =>
      match pleasant_at with
      | .obj tf =>
        let access_token := (lookupField tf "access_token").getD (.str "default")
        match get_pps_entry vars.pleasant_host guid vars.pleasant_verify
            vars.pleasant_timeout access_token env with
        | (.error f, tr2) => (.error (wrapNoEntry f), tr1 ++ tr2)
        | (.ok retval, tr2) =>
          match retval.body with
          | .fail m => (.error (wrapNoEntry (.uncaught m)), tr1 ++ tr2)
          | .ok entry =>
            match get_password vars.pleasant_host guid vars.pleasant_verify
                vars.pleasant_timeout access_token env with
            | (.error f, tr3) => (.error (wrapNoEntry f), tr1 ++ tr2 ++ tr3)
            | (.ok retval2, tr3) =>
              match retval2.body with
              | .fail m => (.error (wrapNoEntry (.uncaught m)), tr1 ++ tr2 ++ tr3)
              | .ok passwd =>
                match entry with
                | .obj ef =>
                  let idusername := (lookupField ef "Username").getD .null
                  (.ok [{ username := toText idusername, password := toText passwd }],
                    tr1 ++ tr2 ++ tr3)
                | e =>
                  (.error (wrapNoEntry (.attributeError (noGetAttrMsg (pyTypeName e)))),
                    tr1 ++ tr2 ++ tr3)
      | a => (.error (wrapNoEntry (.attributeError (noGetAttrMsg (pyTypeName a)))), tr1)

end pluginsLookup

namespace PleasantSpec

/-- A 200 response whose body decodes to the given JSON value. -/
def okJson (j : Json) : CallOutcome :=
  .resp { status_code := 200, reason := "OK", body := .ok j }

/-- A deterministic server fixture for host `"h"` and GUID `"g"`:
answers the token POST, the password GET and (any other request) the
entry GET with the three given outcomes. -/
def mkEnv (tokenOut entryOut passwordOut : CallOutcome) : Env := fun r =>
  if r.method = "POST" then tokenOut
  else if r.url = "h/api/v5/rest/entries/g/password" then passwordOut
  else entryOut

/-- Fixture `variables` mapping: host `"h"`, user `"u"`, password
`"p"`, a CA-bundle path as `verify`, no timeout configured. -/
def fixtureVars : Variables :=
  { pleasant_host := "h", pleasant_username := "u", pleasant_password := "p",
    pleasant_verify := .path "/etc/ssl/certs/ca-bundle.crt",
    pleasant_timeout := Option.none }

/-- The round-trip fixture of the spec: the server answers
`{"access_token":"T"}`, `{"Username":"bob"}` and `"s3cret"`. -/
def happyEnv : Env :=
  mkEnv (okJson (.obj [("access_token", .str "T")]))
        (okJson (.obj [("Username", .str "bob")]))
        (okJson (.str "s3cret"))

/-- Fixture: token and metadata calls succeed, the secret call answers
404 Not Found. -/
def notFoundSecretEnv : Env :=
  mkEnv (okJson (.obj [("access_token", .str "T")]))
        (okJson (.obj [("Username", .str "bob")]))
        (.resp { status_code := 404, reason := "Not Found",
                 body := .fail "Expecting value: line 1 column 1 (char 0)" })

/-- Fixture: the token call answers 201 Created (a non-200 status that
`raise_for_status` does not turn into an error) with a valid token
body; the two GETs succeed. -/
def createdTokenEnv : Env :=
  mkEnv (.resp { status_code := 201, reason := "Created",
                 body := .ok (.obj [("access_token", .str "T")]) })
        (okJson (.obj [("Username", .str "bob")]))
        (okJson (.str "s3cret"))

/-- Fixture: the token call answers 401 Unauthorized. -/
def deniedTokenEnv : Env :=
  mkEnv (.resp { status_code := 401, reason := "Unauthorized",
                 body := .fail "Expecting value: line 1 column 1 (char 0)" })
        (okJson (.obj [("Username", .str "bob")]))
        (okJson (.str "s3cret"))

/-- Fixture: the token call answers 200 with a JSON object that lacks
`access_token`; the two GETs succeed. -/
def noTokenFieldEnv : Env :=
  mkEnv (okJson (.obj []))
        (okJson (.obj [("Username", .str "bob")]))
        (okJson (.str "s3cret"))

/-- Fixture: the token call answers 200 with a JSON object that lacks
`access_token`, and the entry GET fails with a connection error, so
the secret GET is never reached. -/
def noTokenFieldEntryDownEnv : Env :=
  mkEnv (okJson (.obj []))
        (.exc (.connError "connection refused"))
        (okJson (.str "s3cret"))

/-- Fixture: the token call answers 200 with a body that is not valid
JSON. -/
def badJsonTokenEnv : Env :=
  mkEnv (.resp { status_code := 200, reason := "OK",
                 body := .fail "Expecting value: line 1 column 1 (char 0)" })
        (okJson (.obj [("Username", .str "bob")]))
        (okJson (.str "s3cret"))

/-- Fixture: all three calls answer 200 with valid JSON, but the
metadata object has no `Username` field. -/
def noUsernameEnv : Env :=
  mkEnv (okJson (.obj [("access_token", .str "T")]))
        (okJson (.obj [("Id", .str "g")]))
        (okJson (.str "s3cret"))

/-- Fixture: the token call raises `requests.ConnectTimeout`. -/
def connectTimeoutEnv : Env :=
  mkEnv (.exc (.connectTimeout "connect timed out"))
        (okJson (.obj [("Username", .str "bob")]))
        (okJson (.str "s3cret"))

/-- Fixture: the token call raises `requests.ReadTimeout`. -/
def readTimeoutEnv : Env :=
  mkEnv (.exc (.readTimeout "read timed out"))
        (okJson (.obj [("Username", .str "bob")]))
        (okJson (.str "s3cret"))

/-- The token POST request the plugin issues under `fixtureVars`
(timeout defaulted to 5). -/
def fixtureTokenRequest : HttpRequest :=
  { method := "POST", url := "h/oauth2/token",
    headers := [("Content-Type", "application/x-www-form-urlencoded")],
    body := some "grant_type=password&username=u&password=p",
    verify := .path "/etc/ssl/certs/ca-bundle.crt", timeout := 5 }

end PleasantSpec

namespace PleasantSpec

/-- Claim C1: when the server answers the token POST, the
entry-metadata GET and the secret GET all with status 200 and
well-formed bodies (a JSON object with a string `access_token`, a JSON
object carrying `Username`, and any JSON value as the secret), `run`
returns exactly one record whose `username` is the text-normalized
`Username` field of the metadata response and whose `password` is the
text-normalized secret response. -/
theorem run_all200_single_record
    (v : Variables) (guid : String) (env : Env)
    (r1 r2 r3 : String) (tf ef : List (String × Json)) (tok : String) (uv pv : Json)
    (hPOST : ∀ r : HttpRequest, r.method = "POST" →
      env r = .resp { status_code := 200, reason := r1, body := .ok (.obj tf) })
    (htok : lookupField tf "access_token" = some (.str tok))
    (hEntry : ∀ r : HttpRequest, r.method = "GET" →
      r.url = v.pleasant_host ++ "/api/v5/rest/entries/" ++ guid →
      env r = .resp { status_code := 200, reason := r2, body := .ok (.obj ef) })
    (hPwd : ∀ r : HttpRequest, r.method = "GET" →
      r.url = v.pleasant_host ++ "/api/v5/rest/entries/" ++ guid ++ "/password" →
      env r = .resp { status_code := 200, reason := r3, body := .ok pv })
    (huser : lookupField ef "Username" = some uv) :
    (pleasant.run [guid] v env).1 =
      .ok [{ username := toText uv, password := toText pv }] := by
  simp only [pleasant.run, pleasant.get_token, pleasant.get_pps_entry, pleasant.get_password]
  rw [hPOST _ rfl]
  dsimp only
  rw [if_neg (by decide)]
  dsimp only
  rw [htok]
  dsimp only [Option.getD]
  rw [hEntry _ rfl rfl]
  dsimp only
  rw [if_neg (by decide)]
  dsimp only
  rw [hPwd _ rfl rfl]
  dsimp only
  rw [if_neg (by decide)]
  dsimp only
  rw [huser]

/-- Claim C1, witness: on the spec's round-trip fixture
(`{"access_token":"T"}`, `{"Username":"bob"}`, `"s3cret"`) the result
is exactly `[{"username":"bob","password":"s3cret"}]`. -/
theorem run_all200_single_record_witness :
    (pleasant.run ["g"] fixtureVars happyEnv).1 =
      .ok [{ username := "bob", password := "s3cret" }] :=
  run_all200_single_record fixtureVars "g" happyEnv "OK" "OK" "OK"
    [("access_token", .str "T")] [("Username", .str "bob")] "T" (.str "bob") (.str "s3cret")
    (fun r h => by simp [happyEnv, mkEnv, okJson, h])
    rfl
    (fun r hm hu => by simp [happyEnv, mkEnv, okJson, fixtureVars, hm, hu])
    (fun r hm hu => by simp [happyEnv, mkEnv, okJson, fixtureVars, hm, hu])
    rfl

end PleasantSpec

namespace PleasantSpec

/-- Claim C2: when the token and metadata calls succeed (status 200,
decodable bodies, the extracted bearer token a string) but the secret
call answers 404, `run` aborts with an `AnsibleError` carrying the
`HTTPError` text with the 404 status code and reason, and surfaces no
record at all (in particular no partial record with only the username
set). -/
theorem secret404_fails_no_record
    (v : Variables) (guid : String) (env : Env)
    (r1 r2 r3 : String) (tf : List (String × Json)) (tok : String) (je : Json) (pb : Parsed)
    (hPOST : ∀ r : HttpRequest, r.method = "POST" →
      env r = .resp { status_code := 200, reason := r1, body := .ok (.obj tf) })
    (htok : (lookupField tf "access_token").getD (.str "default") = .str tok)
    (hEntry : ∀ r : HttpRequest, r.method = "GET" →
      r.url = v.pleasant_host ++ "/api/v5/rest/entries/" ++ guid →
      env r = .resp { status_code := 200, reason := r2, body := .ok je })
    (hPwd : ∀ r : HttpRequest, r.method = "GET" →
      r.url = v.pleasant_host ++ "/api/v5/rest/entries/" ++ guid ++ "/password" →
      env r = .resp { status_code := 404, reason := r3, body := pb }) :
    (pleasant.run [guid] v env).1 =
      .error (wrapNoEntry (.ansibleError ("An HTTP Error occured " ++
        httpErrorMsg 404 r3
          (v.pleasant_host ++ "/api/v5/rest/entries/" ++ guid ++ "/password")))) := by
  simp only [pleasant.run, pleasant.get_token, pleasant.get_pps_entry, pleasant.get_password]
  rw [hPOST _ rfl]
  dsimp only
  rw [if_neg (by decide)]
  dsimp only
  rw [htok]
  dsimp only
  rw [hEntry _ rfl rfl]
  dsimp only
  rw [if_neg (by decide)]
  dsimp only
  rw [hPwd _ rfl rfl]
  dsimp only
  rw [if_pos (by decide)]

/-- Claim C2, witness: on the fixture where the secret call answers
404 Not Found, the lookup aborts with the wrapped `HTTPError` message
(status 404 and reason included) and returns no record. -/
theorem secret404_fails_no_record_witness :
    (pleasant.run ["g"] fixtureVars notFoundSecretEnv).1 =
      .error (wrapNoEntry (.ansibleError ("An HTTP Error occured " ++
        httpErrorMsg 404 "Not Found" "h/api/v5/rest/entries/g/password"))) :=
  secret404_fails_no_record fixtureVars "g" notFoundSecretEnv "OK" "OK" "Not Found"
    [("access_token", .str "T")] "T" (.obj [("Username", .str "bob")])
    (.fail "Expecting value: line 1 column 1 (char 0)")
    (fun r h => by simp [notFoundSecretEnv, mkEnv, okJson, h])
    rfl
    (fun r hm hu => by simp [notFoundSecretEnv, mkEnv, okJson, fixtureVars, hm, hu])
    (fun r hm hu => by simp [notFoundSecretEnv, mkEnv, okJson, fixtureVars, hm, hu])

end PleasantSpec

namespace PleasantSpec

/-- Claim C3, counterexample: the claim quantifies over every non-200
token status, but `raise_for_status` only raises for 4xx/5xx.  With the
token POST answered 201 Created (and a valid token body), the lookup
does not fail: it proceeds, issues all three calls and returns the
record. -/
theorem token201_proceeds_and_issues_gets :
    createdTokenEnv fixtureTokenRequest =
      .resp { status_code := 201, reason := "Created",
              body := .ok (.obj [("access_token", .str "T")]) } ∧
    (pleasant.run ["g"] fixtureVars createdTokenEnv).1 =
      .ok [{ username := "bob", password := "s3cret" }] ∧
    (pleasant.run ["g"] fixtureVars createdTokenEnv).2.length = 3 :=
  ⟨rfl, rfl, rfl⟩

/-- Claim C3 as amended: when the token POST answers a 4xx or 5xx
status, the lookup aborts with an `AnsibleError` carrying the
`HTTPError` text (status code and reason included) and issues no
further call: the trace holds exactly the one POST request.  (A non-200
status outside 400–599 is not turned into an error by
`raise_for_status`; the workflow then proceeds.) -/
theorem tokenErrorStatus_aborts_before_gets
    (v : Variables) (guid : String) (env : Env)
    (s : Nat) (r1 : String) (pb : Parsed)
    (hs : 400 ≤ s) (hs' : s < 600)
    (hPOST : ∀ r : HttpRequest, r.method = "POST" →
      env r = .resp { status_code := s, reason := r1, body := pb }) :
    (pleasant.run [guid] v env).1 =
      .error (.ansibleError ("An HTTP Error occured " ++
        httpErrorMsg s r1 (v.pleasant_host ++ "/oauth2/token"))) ∧
    (pleasant.run [guid] v env).2.length = 1 ∧
    ∀ r ∈ (pleasant.run [guid] v env).2, r.method = "POST" := by
  simp only [pleasant.run, pleasant.get_token]
  rw [hPOST _ rfl]
  dsimp only
  rw [if_pos ⟨hs, hs'⟩]
  refine ⟨rfl, rfl, ?_⟩
  intro r hr
  simp only [List.mem_singleton] at hr
  subst hr
  rfl

/-- Claim C3 as amended, witness: with the token POST answered 401
Unauthorized, the lookup aborts with the `HTTPError` text and the
trace holds only the POST. -/
theorem tokenErrorStatus_aborts_before_gets_witness :
    (pleasant.run ["g"] fixtureVars deniedTokenEnv).1 =
      .error (.ansibleError ("An HTTP Error occured " ++
        httpErrorMsg 401 "Unauthorized" "h/oauth2/token")) ∧
    (pleasant.run ["g"] fixtureVars deniedTokenEnv).2.length = 1 ∧
    ∀ r ∈ (pleasant.run ["g"] fixtureVars deniedTokenEnv).2, r.method = "POST" :=
  tokenErrorStatus_aborts_before_gets fixtureVars "g" deniedTokenEnv 401 "Unauthorized"
    (.fail "Expecting value: line 1 column 1 (char 0)") (by decide) (by decide)
    (fun r h => by simp [deniedTokenEnv, mkEnv, h])

end PleasantSpec

namespace PleasantSpec

/-- Whatever the server answers, `get_password` called with a string
token issues exactly one request, and that request carries
`Authorization: Bearer {token}`. -/
theorem get_password_auth_header (host id : String) (vf : VerifyOpt)
    (topt : Option Rat) (tok : String) (env : Env) :
    (pleasant.get_password host id vf topt (.str tok) env).2.map
      (fun r => List.lookup "Authorization" r.headers) = [some ("Bearer " ++ tok)] := by
  dsimp only [pleasant.get_password]
  split <;> (try split) <;> simp [List.lookup]

/-- Claim C4, counterexample: the claim asserts that whenever the
token POST answers 200 with a JSON object lacking `access_token`, both
GETs are issued; but if the entry-metadata GET fails (here: connection
refused), the secret GET is never issued — the trace holds only two
requests. -/
theorem missingToken_entryDown_no_secret_get :
    noTokenFieldEntryDownEnv fixtureTokenRequest =
      .resp { status_code := 200, reason := "OK", body := .ok (.obj []) } ∧
    lookupField [] "access_token" = Option.none ∧
    (pleasant.run ["g"] fixtureVars noTokenFieldEntryDownEnv).2.length = 2 ∧
    (pleasant.run ["g"] fixtureVars noTokenFieldEntryDownEnv).1 =
      .error (wrapNoEntry (.ansibleError
        ("Can't connect to host to get token " ++ "connection refused"))) :=
  ⟨rfl, rfl, rfl, rfl⟩

/-- Claim C4 as amended: when the token POST answers 200 with a JSON
object lacking `access_token`, the workflow does not fail at that
point: it proceeds with the placeholder token, issues the
entry-metadata GET with header `Authorization: Bearer default`, and —
provided the metadata call answers 200 with a decodable body — also
issues the secret GET with the same header (whatever the secret call
then returns). -/
theorem missingToken_bearer_default
    (v : Variables) (guid : String) (env : Env)
    (r1 r2 : String) (tf : List (String × Json)) (je : Json)
    (hPOST : ∀ r : HttpRequest, r.method = "POST" →
      env r = .resp { status_code := 200, reason := r1, body := .ok (.obj tf) })
    (hNoTok : lookupField tf "access_token" = Option.none)
    (hEntry : ∀ r : HttpRequest, r.method = "GET" →
      r.url = v.pleasant_host ++ "/api/v5/rest/entries/" ++ guid →
      env r = .resp { status_code := 200, reason := r2, body := .ok je }) :
    (pleasant.run [guid] v env).2.map
      (fun r => List.lookup "Authorization" r.headers) =
      [Option.none, some "Bearer default", some "Bearer default"] := by
  have hpw := get_password_auth_header v.pleasant_host guid v.pleasant_verify
    v.pleasant_timeout "default" env
  simp only [pleasant.run, pleasant.get_token, pleasant.get_pps_entry]
  rw [hPOST _ rfl]
  dsimp only
  rw [if_neg (by decide)]
  dsimp only
  rw [hNoTok]
  dsimp only [Option.getD]
  rw [hEntry _ rfl rfl]
  dsimp only
  rw [if_neg (by decide)]
  dsimp only
  rcases h3 : pleasant.get_password v.pleasant_host guid v.pleasant_verify
      v.pleasant_timeout (.str "default") env with ⟨res3, tr3⟩
  rw [h3] at hpw
  rcases res3 with f | r2
  · simp_all [List.lookup]
  · rcases hb : r2.body with j | m
    · rcases je with _ | b | n | s | es | fs <;> simp_all [List.lookup]
    · simp_all [List.lookup]

/-- Claim C4 as amended, witness: on the fixture whose token body is
`{}` and whose GETs succeed, the trace is the POST (no Authorization
header) followed by the two GETs carrying `Authorization: Bearer
default`. -/
theorem missingToken_bearer_default_witness :
    (pleasant.run ["g"] fixtureVars noTokenFieldEnv).2.map
      (fun r => List.lookup "Authorization" r.headers) =
      [Option.none, some "Bearer default", some "Bearer default"] :=
  missingToken_bearer_default fixtureVars "g" noTokenFieldEnv "OK" "OK" []
    (.obj [("Username", .str "bob")])
    (fun r h => by simp [noTokenFieldEnv, mkEnv, okJson, h])
    rfl
    (fun r hm hu => by simp [noTokenFieldEnv, mkEnv, okJson, fixtureVars, hm, hu])

end PleasantSpec

namespace PleasantSpec

/-- Claim C5 (code bug): when the token POST answers 200 with an
undecodable body, the `except` handler in `get_token` evaluates
`f"can't decode access token : {pleasant_at} , ..."` — but
`pleasant_at` was never assigned, so the handler itself raises
`UnboundLocalError`: the invocation aborts with that Python error, not
with the intended descriptive `AnsibleError` carrying the decode
error's message. -/
theorem tokenBodyNotJson_unbound_local :
    badJsonTokenEnv fixtureTokenRequest =
      .resp { status_code := 200, reason := "OK",
              body := .fail "Expecting value: line 1 column 1 (char 0)" } ∧
    (pleasant.run ["g"] fixtureVars badJsonTokenEnv).1 =
      .error (.unboundLocal "pleasant_at") ∧
    (pleasant.run ["g"] fixtureVars badJsonTokenEnv).2.length = 1 :=
  ⟨rfl, rfl, rfl⟩

/-- Claim C6, counterexample: with all three calls answering 200 and
valid JSON but the metadata object lacking `Username`, the lookup does
not fail: `entry.get("Username")` yields `None`, `to_text` coerces it
to the string `"None"`, and a full record is returned. -/
theorem metadataNoUsername_silently_coerced :
    lookupField [("Id", Json.str "g")] "Username" = Option.none ∧
    (pleasant.run ["g"] fixtureVars noUsernameEnv).1 =
      .ok [{ username := "None", password := "s3cret" }] :=
  ⟨rfl, rfl⟩

/-- Claim C6 as amended: when all three calls answer 200 with valid
JSON and the metadata object lacks `Username`, no error is raised: the
lookup returns one record whose username is the text `"None"` (the
text-normalization of Python `None`) and whose password is the
text-normalized secret. -/
theorem metadataNoUsername_returns_none_string
    (v : Variables) (guid : String) (env : Env)
    (r1 r2 r3 : String) (tf ef : List (String × Json)) (tok : String) (pv : Json)
    (hPOST : ∀ r : HttpRequest, r.method = "POST" →
      env r = .resp { status_code := 200, reason := r1, body := .ok (.obj tf) })
    (htok : (lookupField tf "access_token").getD (.str "default") = .str tok)
    (hEntry : ∀ r : HttpRequest, r.method = "GET" →
      r.url = v.pleasant_host ++ "/api/v5/rest/entries/" ++ guid →
      env r = .resp { status_code := 200, reason := r2, body := .ok (.obj ef) })
    (hPwd : ∀ r : HttpRequest, r.method = "GET" →
      r.url = v.pleasant_host ++ "/api/v5/rest/entries/" ++ guid ++ "/password" →
      env r = .resp { status_code := 200, reason := r3, body := .ok pv })
    (huser : lookupField ef "Username" = Option.none) :
    (pleasant.run [guid] v env).1 =
      .ok [{ username := "None", password := toText pv }] := by
  simp only [pleasant.run, pleasant.get_token, pleasant.get_pps_entry, pleasant.get_password]
  rw [hPOST _ rfl]
  dsimp only
  rw [if_neg (by decide)]
  dsimp only
  rw [htok]
  dsimp only
  rw [hEntry _ rfl rfl]
  dsimp only
  rw [if_neg (by decide)]
  dsimp only
  rw [hPwd _ rfl rfl]
  dsimp only
  rw [if_neg (by decide)]
  dsimp only
  rw [huser]
  rfl

/-- Claim C6 as amended, witness: on the fixture whose metadata is
`{"Id":"g"}`, the result is `[{"username":"None","password":"s3cret"}]`
and no failure is raised. -/
theorem metadataNoUsername_returns_none_string_witness :
    (pleasant.run ["g"] fixtureVars noUsernameEnv).1 =
      .ok [{ username := "None", password := toText (.str "s3cret") }] :=
  metadataNoUsername_returns_none_string fixtureVars "g" noUsernameEnv "OK" "OK" "OK"
    [("access_token", .str "T")] [("Id", .str "g")] "T" (.str "s3cret")
    (fun r h => by simp [noUsernameEnv, mkEnv, okJson, h])
    rfl
    (fun r hm hu => by simp [noUsernameEnv, mkEnv, okJson, fixtureVars, hm, hu])
    (fun r hm hu => by simp [noUsernameEnv, mkEnv, okJson, fixtureVars, hm, hu])
    rfl

/-- Claim C7 (code bug): a read timeout on the token POST is surfaced
as the timeout message and no further call is attempted — but a
connect timeout is caught by the `except requests.ConnectionError`
clause (`ConnectTimeout` subclasses `ConnectionError`, and that clause
comes first), so it is surfaced as the connection-failure message: the
dedicated `except requests.ConnectTimeout` handler, whose message says
the request timed out, is unreachable.  In both cases the trace holds
only the POST. -/
theorem tokenTimeout_classification :
    connectTimeoutEnv fixtureTokenRequest = .exc (.connectTimeout "connect timed out") ∧
    (pleasant.run ["g"] fixtureVars connectTimeoutEnv).1 =
      .error (.ansibleError ("Can't connect to host to get token " ++ "connect timed out")) ∧
    (pleasant.run ["g"] fixtureVars connectTimeoutEnv).2.length = 1 ∧
    readTimeoutEnv fixtureTokenRequest = .exc (.readTimeout "read timed out") ∧
    (pleasant.run ["g"] fixtureVars readTimeoutEnv).1 =
      .error (.ansibleError ("The request timed out " ++ "read timed out")) ∧
    (pleasant.run ["g"] fixtureVars readTimeoutEnv).2.length = 1 :=
  ⟨rfl, rfl, rfl, rfl, rfl, rfl⟩

end PleasantSpec


namespace PleasantSpec

/-- Every request `get_token` issues carries the `verify` value it was
given. -/
theorem get_token_verify (h u p : String) (vf : VerifyOpt) (topt : Option Rat) (env : Env) :
    ∀ r ∈ (pleasant.get_token h u p vf topt env).2, r.verify = vf := by
  intro r hr
  dsimp only [pleasant.get_token] at hr
  split at hr <;> (try split at hr) <;> (try split at hr) <;> simp_all

/-- Every request `get_pps_entry` issues carries the `verify` value it
was given. -/
theorem get_pps_entry_verify (h g : String) (vf : VerifyOpt) (topt : Option Rat)
    (tok : Json) (env : Env) :
    ∀ r ∈ (pleasant.get_pps_entry h g vf topt tok env).2, r.verify = vf := by
  intro r hr
  dsimp only [pleasant.get_pps_entry] at hr
  split at hr <;> (try split at hr) <;> (try split at hr) <;> simp_all

/-- Every request `get_password` issues carries the `verify` value it
was given. -/
theorem get_password_verify (h g : String) (vf : VerifyOpt) (topt : Option Rat)
    (tok : Json) (env : Env) :
    ∀ r ∈ (pleasant.get_password h g vf topt tok env).2, r.verify = vf := by
  intro r hr
  dsimp only [pleasant.get_password] at hr
  split at hr <;> (try split at hr) <;> (try split at hr) <;> simp_all

/-- Every request `run` issues carries the `pleasant_verify` value of
the `variables` mapping. -/
theorem run_verify (terms : List String) (v : Variables) (env : Env) :
    ∀ r ∈ (pleasant.run terms v env).2, r.verify = v.pleasant_verify := by
  intro r hr
  cases terms with
  | nil => simp [pleasant.run] at hr
  | cons g rest =>
    dsimp only [pleasant.run] at hr
    rcases hTok : pleasant.get_token v.pleasant_host v.pleasant_username
        v.pleasant_password v.pleasant_verify v.pleasant_timeout env with ⟨res1, tr1⟩
    have h1 := get_token_verify v.pleasant_host v.pleasant_username v.pleasant_password
      v.pleasant_verify v.pleasant_timeout env
    rw [hTok] at hr h1
    dsimp only at h1
    rcases res1 with f | pa
    · exact h1 r hr
    · rcases pa with _ | b | n | s | es | tf
      · exact h1 r hr
      · exact h1 r hr
      · exact h1 r hr
      · exact h1 r hr
      · exact h1 r hr
      · dsimp only at hr
        rcases hE : pleasant.get_pps_entry v.pleasant_host g v.pleasant_verify
            v.pleasant_timeout ((lookupField tf "access_token").getD (.str "default")) env
          with ⟨res2, tr2⟩
        have h2 := get_pps_entry_verify v.pleasant_host g v.pleasant_verify
          v.pleasant_timeout ((lookupField tf "access_token").getD (.str "default")) env
        rw [hE] at hr h2
        dsimp only at hr h2
        have hsplit2 : r ∈ tr1 ++ tr2 → r.verify = v.pleasant_verify := by
          intro h
          rcases List.mem_append.mp h with h | h
          · exact h1 r h
          · exact h2 r h
        rcases res2 with f | retval
        · exact hsplit2 hr
        · dsimp only at hr
          rcases hb : retval.body with entry | m
          · rw [hb] at hr
            dsimp only at hr
            rcases hP : pleasant.get_password v.pleasant_host g v.pleasant_verify
                v.pleasant_timeout ((lookupField tf "access_token").getD (.str "default")) env
              with ⟨res3, tr3⟩
            have h3 := get_password_verify v.pleasant_host g v.pleasant_verify
              v.pleasant_timeout ((lookupField tf "access_token").getD (.str "default")) env
            rw [hP] at hr h3
            dsimp only at hr h3
            have hmem : r ∈ tr1 ++ tr2 ++ tr3 := by
              rcases res3 with f | retval2
              · exact hr
              · dsimp only at hr
                rcases hb2 : retval2.body with passwd | m
                · rw [hb2] at hr
                  dsimp only at hr
                  cases entry <;> exact hr
                · rw [hb2] at hr
                  exact hr
            rcases List.mem_append.mp hmem with h | h
            · exact hsplit2 h
            · exact h3 r h
          · rw [hb] at hr
            exact hsplit2 hr

/-- Claim C8: when `pleasant_verify` is a CA-bundle path, every
outbound HTTP call — token POST, metadata GET, secret GET — is issued
with exactly that `verify` value handed to the transport; no request in
the trace carries a different or absent verification policy. -/
theorem verify_path_on_every_request
    (terms : List String) (v : Variables) (env : Env) (p : String)
    (hv : v.pleasant_verify = .path p) :
    ∀ r ∈ (pleasant.run terms v env).2, r.verify = .path p := by
  intro r hr
  rw [← hv]
  exact run_verify terms v env r hr

/-- Claim C8, witness: under `fixtureVars` (whose `verify` is the path
`/etc/ssl/certs/ca-bundle.crt`) the token POST of the happy-path trace
is issued and carries that path. -/
theorem verify_path_on_every_request_witness :
    fixtureVars.pleasant_verify = .path "/etc/ssl/certs/ca-bundle.crt" ∧
    fixtureTokenRequest ∈ (pleasant.run ["g"] fixtureVars happyEnv).2 ∧
    fixtureTokenRequest.verify = .path "/etc/ssl/certs/ca-bundle.crt" :=
  ⟨rfl, by decide,
    verify_path_on_every_request ["g"] fixtureVars happyEnv
      "/etc/ssl/certs/ca-bundle.crt" rfl fixtureTokenRequest (by decide)⟩

/-- Claim C9: the two copies of the plugin — `src/pleasant.py` and
`src/plugins/lookup/pleasant.py` — are behaviorally equivalent: on
every input and every server environment they produce the same result
(or the same classified failure) and issue the same requests. -/
theorem implementations_equivalent (terms : List String) (v : Variables) (env : Env) :
    pleasant.run terms v env = pluginsLookup.run terms v env := rfl

/-- Claim C10: `run` reads only `terms[0]`: with extra elements in the
terms list, the result — records, failures and issued requests alike —
is identical to invoking with the first element alone. -/
theorem extra_terms_ignored (g : String) (rest : List String) (v : Variables) (env : Env) :
    pleasant.run (g :: rest) v env = pleasant.run [g] v env := rfl

end PleasantSpec

